import Mathlib

/-!
Verification development for the IMDB analytics platform's ingestion
orchestrator (`src/ingestion/ingest.py`, `src/ingestion/utils.py`,
`src/ingestion/config.py`) and the warehouse query wrapper
(`src/app/bigquery_tool.py`).

The Python code is shallowly embedded: the external services (HTTP
download, parquet encoding, GCS upload, BigQuery load) are modelled by an
oracle environment `Env` that says, for each derived path or URL, whether
the corresponding file exists and whether the corresponding primitive call
succeeds or raises.  Each stage primitive invocation performed by
`process_table` is recorded as an `Event`, so that claims about which
calls are made ("no fetch on a cache hit", "B and C never attempted under
fail-fast") are statements about the event trace.
-/

namespace IMDB

/-- Errors raised by the stage primitives (`requests.RequestException`,
`pd.errors.ParserError` / `FileNotFoundError`, GCS upload errors, BigQuery
load errors).  `process_table` catches all of them via `except Exception`. -/
inductive StageError where
  | transfer
  | format
  | load
deriving DecidableEq, Repr

/-- One stage-primitive call made by `process_table`, tagged with the table
being processed: `fetch` = `download_file`, `transform` =
`convert_to_parquet`, `publish` = `upload_to_gcs`, `load` =
`load_to_bigquery`. -/
inductive Event where
  | fetch (table : String)
  | transform (table : String)
  | publish (table : String)
  | load (table : String)
deriving DecidableEq, Repr

/-- The table a stage event belongs to. -/
def Event.table : Event → String
  | Event.fetch t => t
  | Event.transform t => t
  | Event.publish t => t
  | Event.load t => t

namespace Config

/-- `Config.base_url` default (src/ingestion/config.py line 53). -/
def base_url : String := r"https://datasets.imdbws.com/"

/-- `Config.bucket_name` default (config.py line 39). -/
def bucket_name : String := r"imdb-data-id2608"

/-- `Config.bronze_dataset` default (config.py line 40). -/
def bronze_dataset : String := r"bronze_id2608"

/-- `Config.raw_data_folder` default (config.py line 58). -/
def raw_data_folder : String := r"data/raw"

/-- `Config.parquet_data_folder` default (config.py line 59). -/
def parquet_data_folder : String := r"data/parquet"

/-- `Config.tables`: the static catalogue of the seven IMDB tables
(config.py lines 65-73). -/
def tables : List String :=
  [r"name.basics", r"title.akas", r"title.basics", r"title.crew",
   r"title.episode", r"title.principals", r"title.ratings"]

/-- `Config.get_table_filename`: appends the `.tsv.gz` extension
(config.py line 143). -/
def get_table_filename (table : String) : String := table ++ r".tsv.gz"

/-- `Config.get_table_id`: embeds `table.replace(".", "_")` — BigQuery
table names cannot contain dots (config.py line 159); the pattern is a
single character, so the replacement is the character map dot-to-underscore. -/
def get_table_id (table : String) : String :=
  String.mk (table.data.map fun c => if c = '.' then '_' else c)

/-- `Config.get_gcs_path` (config.py line 173). -/
def get_gcs_path (table : String) : String :=
  r"imdb/" ++ get_table_id table ++ r"/" ++ get_table_id table ++ r".parquet"

/-- `Config.get_gcs_uri` (config.py line 186). -/
def get_gcs_uri (table : String) : String :=
  r"gs://" ++ bucket_name ++ r"/" ++ get_gcs_path table

end Config

/-- The oracle environment for one run: file-existence state of the local
cache directories and the outcome of each external primitive, keyed by the
derived path / URL / identifier the code passes to it.  `rawFiles` and
`parquetFiles` are the contents of the two local cache directories as seen
by `cleanup_local_files`'s glob patterns. -/
structure Env where
  rawExists : String → Bool
  parquetExists : String → Bool
  download : String → Except StageError Unit
  convert : String → Except StageError Unit
  upload : String → Except StageError Unit
  loadJob : String → Except StageError Unit
  rawFiles : List String
  parquetFiles : List String

/-- The body of `process_table`'s `try` block (ingest.py lines 56-100):
derives the per-table paths, then runs fetch (cache-skippable), transform
(cache-skippable), publish (always), load (unless `skip_bigquery`).  It
returns the trace of stage calls made together with either `Except.ok true`
(the `return True` at line 100) or the first stage error raised. -/
def process_table_body (env : Env) (table : String)
    (force_download skip_bigquery : Bool) :
    List Event × Except StageError Bool :=
  let filename := Config.get_table_filename table
  let raw_path := Config.raw_data_folder ++ r"/" ++ filename
  let download_url := Config.base_url ++ filename
  let table_id := Config.get_table_id table
  let parquet_path := Config.parquet_data_folder ++ r"/" ++ table_id ++ r".parquet"
  let gcs_path := Config.get_gcs_path table
  let step1 : List Event × Except StageError Unit :=
    if force_download || !env.rawExists raw_path then
      ([Event.fetch table], env.download download_url)
    else ([], Except.ok ())
  match step1 with
  | (evs1, Except.error e) => (evs1, Except.error e)
  | (evs1, Except.ok _) =>
    let step2 : List Event × Except StageError Unit :=
      if force_download || !env.parquetExists parquet_path then
        ([Event.transform table], env.convert raw_path)
      else ([], Except.ok ())
    match step2 with
    | (evs2, Except.error e) => (evs1 ++ evs2, Except.error e)
    | (evs2, Except.ok _) =>
      match env.upload gcs_path with
      | Except.error e => (evs1 ++ evs2 ++ [Event.publish table], Except.error e)
      | Except.ok _ =>
        let evs3 := evs1 ++ evs2 ++ [Event.publish table]
        if !skip_bigquery then
          match env.loadJob table_id with
          | Except.error e => (evs3 ++ [Event.load table], Except.error e)
          | Except.ok _ => (evs3 ++ [Event.load table], Except.ok true)
        else (evs3, Except.ok true)

/-- `process_table` (ingest.py lines 36-104): the `try`/`except Exception`
wrapper around the body — any stage error is logged and converted into the
per-table outcome `False` (line 104).  Returns the outcome and the trace. -/
def process_table (env : Env) (table : String)
    (force_download skip_bigquery : Bool) : Bool × List Event :=
  match process_table_body env table force_download skip_bigquery with
  | (evs, Except.ok b) => (b, evs)
  | (evs, Except.error _) => (false, evs)

/-- Python-dict insertion `results[table] = success` (ingest.py line 151):
overwrites the value when the key is present, otherwise appends at the end
(insertion order preserved). -/
def pyDictInsert (m : List (String × Bool)) (k : String) (v : Bool) :
    List (String × Bool) :=
  if m.any fun p => p.1 == k then
    m.map fun p => if p.1 == k then (k, v) else p
  else m ++ [(k, v)]

/-- Accumulator of `run_pipeline`'s loop: the Run Result dict, the list of
tables for which `process_table` was invoked, and the event trace. -/
structure GoAcc where
  results : List (String × Bool)
  attempted : List String
  events : List Event
deriving DecidableEq, Repr

/-- The `for` loop of `run_pipeline` (ingest.py lines 141-156): invoke
`process_table` on each table, record the outcome in the Run Result and
break on the first failure when `fail_fast` is set. -/
def run_pipeline_go (env : Env) (force_download skip_bigquery fail_fast : Bool) :
    List String → GoAcc → GoAcc
  | [], acc => acc
  | table :: rest, acc =>
    let pr := process_table env table force_download skip_bigquery
    let acc2 : GoAcc :=
      { results := pyDictInsert acc.results table pr.1
        attempted := acc.attempted ++ [table]
        events := acc.events ++ pr.2 }
    if !pr.1 && fail_fast then acc2
    else run_pipeline_go env force_download skip_bigquery fail_fast rest acc2

/-- `cleanup_local_files` (utils.py lines 326-346): returns the list of
files it deletes — every `*.tsv.gz` file of the raw folder, plus every
`*.parquet` file of the parquet folder when `keep_parquet` is false. -/
def cleanup_local_files (keep_parquet : Bool)
    (rawFiles parquetFiles : List String) : List String :=
  rawFiles ++ if keep_parquet then [] else parquetFiles

/-- The exit-code computation of `run_pipeline` (ingest.py lines 163-189):
`successful` / `failed` are the dict entries partitioned by outcome;
`0` when no table failed, `1` when some failed but some succeeded,
`2` otherwise. -/
def compute_exit_code (results : List (String × Bool)) : Nat :=
  let successful := results.filter fun p => p.2
  let failed := results.filter fun p => !p.2
  if failed = [] then 0 else if successful ≠ [] then 1 else 2

/-- The cleanup step of `run_pipeline` (ingest.py lines 175-178): local
files are deleted only when `cleanup` was requested and no table failed;
`cleanup_local_files` is then called with `keep_parquet=True`. -/
def run_pipeline_deleted (cleanup : Bool) (results : List (String × Bool))
    (rawFiles parquetFiles : List String) : List String :=
  let failed := results.filter fun p => !p.2
  if cleanup = true ∧ failed = [] then
    cleanup_local_files true rawFiles parquetFiles
  else []

/-- The observable outcome of one `run_pipeline` call. -/
structure RunOutcome where
  results : List (String × Bool)
  attempted : List String
  events : List Event
  deleted : List String
  exitCode : Nat
deriving DecidableEq, Repr

/-- `run_pipeline` (ingest.py lines 107-189): `tables = tables or
Config.tables` (both `None` and the empty list fall back to the full
catalogue), then the per-table loop, the conditional cleanup and the exit
code. -/
def run_pipeline (env : Env) (tables : Option (List String))
    (force_download skip_bigquery fail_fast cleanup : Bool) : RunOutcome :=
  let tables2 := match tables with
    | none => Config.tables
    | some ts => if ts.isEmpty then Config.tables else ts
  let acc := run_pipeline_go env force_download skip_bigquery fail_fast tables2
    { results := [], attempted := [], events := [] }
  { results := acc.results
    attempted := acc.attempted
    events := acc.events
    deleted := run_pipeline_deleted cleanup acc.results env.rawFiles env.parquetFiles
    exitCode := compute_exit_code acc.results }

/-- `main` (ingest.py lines 234-294): `Config.validate()` is called before
anything else and a `ValueError` / `FileNotFoundError` exits the process
with code 2 before any table is processed; `--dry-run` exits 0; otherwise
the process exits with `run_pipeline`'s return value (an empty `--tables`
tuple is passed as `None`).  Returns the exit status and the stage-call
trace of the process. -/
def main (config_valid dry_run : Bool) (env : Env) (tables_cli : List String)
    (force_download skip_bigquery fail_fast cleanup : Bool) : Nat × List Event :=
  if !config_valid then (2, [])
  else if dry_run then (0, [])
  else
    let r := run_pipeline env
      (if tables_cli.isEmpty then none else some tables_cli)
      force_download skip_bigquery fail_fast cleanup
    (r.exitCode, r.events)

/-! ### Fetcher internals (`download_file`, utils.py lines 42-85) -/

/-- One fetch attempt as seen by `download_file`: whether
`response.raise_for_status()` passes, the byte chunks the stream delivers
before it ends, and whether the stream raises a `RequestException` after
delivering them (an interrupted transfer). -/
structure FetchAttempt where
  http_ok : Bool
  chunks : List (List Nat)
  interrupted : Bool

/-- `download_file` (utils.py lines 42-85): on an HTTP-status failure it
raises before opening the destination; otherwise it opens `destination`
directly (`open(destination, "wb")`, line 70) and writes the delivered
chunks to it one by one, so the bytes written so far stay at `destination`
even when the stream then raises.  No temporary path and no rename are
used.  Returns the updated file-system map and the call's outcome. -/
def download_file (attempt : FetchAttempt) (destination : String)
    (files : String → Option (List Nat)) :
    (String → Option (List Nat)) × Except StageError Unit :=
  if !attempt.http_ok then
    (files, Except.error StageError.transfer)
  else
    let files2 := fun p =>
      if p = destination then some attempt.chunks.flatten else files p
    (files2,
      if attempt.interrupted then Except.error StageError.transfer
      else Except.ok ())

/-- The cache test of `process_table`'s fetch step (ingest.py line 64):
the fetch is skipped exactly when `force_download` is false and a file —
any file, with any content — exists at `raw_path`. -/
def fetch_skipped (force_download : Bool)
    (files : String → Option (List Nat)) (raw_path : String) : Bool :=
  !force_download && (files raw_path).isSome

/-! ### Transformer (`convert_to_parquet`, utils.py lines 93-145) -/

/-- The report §4.2 of the spec says the transform step returns. -/
structure ConversionReport where
  row_count : Nat
  column_count : Nat
  compression_ratio : ℚ
deriving DecidableEq, Repr

/-- Modelled from the spec (§4.2): the `ConversionReport` the contract
`transform(local_raw_path, local_columnar_path) -> ConversionReport`
promises — row count, column count, and compression ratio
`1 - compressed_size/original_size`. -/
def spec_compression_ratio (original_size compressed_size : ℚ) : ℚ :=
  1 - compressed_size / original_size

/-- What one `convert_to_parquet` call observably produces: the values it
logs and the value it returns to its caller. -/
structure ConvertOutcome where
  logged_rows : Nat
  logged_columns : Nat
  logged_size_reduction_percent : ℚ
  returned : Option ConversionReport
deriving DecidableEq, Repr

/-- `convert_to_parquet` (utils.py lines 93-145): reading the TSV yields
the data frame's row and column counts or raises (`read_result`); the
parquet file is then written and the function logs the row count, the
column count and `compression_ratio = (1 - parquet_size / original_size)
* 100` (line 136).  The function is annotated `-> None` and has no
`return` statement, so its returned value is `None` (`returned := none`);
any exception is logged and re-raised. -/
def convert_to_parquet (read_result : Except StageError (Nat × Nat))
    (original_size parquet_size : ℚ) : Except StageError ConvertOutcome :=
  match read_result with
  | Except.error e => Except.error e
  | Except.ok (nrows, ncols) =>
    Except.ok
      { logged_rows := nrows
        logged_columns := ncols
        logged_size_reduction_percent := (1 - parquet_size / original_size) * 100
        returned := none }

/-! ### Loader dataset provisioning (`ensure_dataset_exists`,
utils.py lines 231-258) -/

/-- Errors of the BigQuery client calls: `NotFound` (dataset absent),
`Conflict` (dataset already exists — what `create_dataset` raises when
another caller created it concurrently), or any other failure. -/
inductive GError where
  | notFound
  | conflict
  | other
deriving DecidableEq, Repr

/-- `ensure_dataset_exists` (utils.py lines 231-258): `get_dataset` inside
a `try`; on `NotFound` the handler calls `create_dataset` — and in Python
an exception raised inside an `except` handler is not caught by the
sibling `except Exception` clause of the same `try`, so whatever
`create_dataset` raises (in particular a `Conflict`) propagates to the
caller; any other `get_dataset` error is logged and re-raised. -/
def ensure_dataset_exists (get_result : Except GError Unit)
    (create_result : Except GError Unit) : Except GError Unit :=
  match get_result with
  | Except.ok _ => Except.ok ()
  | Except.error GError.notFound => create_result
  | Except.error e => Except.error e

/-! ### Warehouse query wrapper (`execute_sql`,
src/app/bigquery_tool.py lines 38-77) -/

/-- The dictionary `execute_sql` returns. -/
structure QueryResult where
  success : Bool
  data : Option (List (List String))
  error : Option String
  rows_returned : Nat
  bytes_processed : Nat
deriving DecidableEq, Repr

/-- `execute_sql` (bigquery_tool.py lines 38-77): the whole body — client
construction, query execution, data-frame conversion — runs inside one
`try`; its outcome is the row set and the bytes processed, or an exception
message.  On success the returned dict is `{success: True, data: df,
error: None, rows_returned: len(df), bytes_processed: ...}`; on any
exception it is `{success: False, data: None, error: str(e),
rows_returned: 0, bytes_processed: 0}`.  The function itself never
raises. -/
def execute_sql (query_outcome : Except String (List (List String) × Nat)) :
    QueryResult :=
  match query_outcome with
  | Except.ok (rows, bytes) =>
    { success := true
      data := some rows
      error := none
      rows_returned := rows.length
      bytes_processed := bytes }
  | Except.error msg =>
    { success := false
      data := none
      error := some msg
      rows_returned := 0
      bytes_processed := 0 }

/-! ### Concrete oracle environments used as test inputs -/

/-- Environment where no local cache file exists and every stage primitive
succeeds. -/
def envAllOk : Env :=
  { rawExists := fun _ => false
    parquetExists := fun _ => false
    download := fun _ => Except.ok ()
    convert := fun _ => Except.ok ()
    upload := fun _ => Except.ok ()
    loadJob := fun _ => Except.ok ()
    rawFiles := []
    parquetFiles := [] }

/-- Environment where the download of table `A`'s source file fails with a
network error and everything else succeeds. -/
def envFailA : Env :=
  { envAllOk with
    download := fun u =>
      if u = Config.base_url ++ r"A.tsv.gz" then Except.error StageError.transfer
      else Except.ok () }

/-- Environment where the download of table `B`'s source file fails and
everything else succeeds. -/
def envFailB : Env :=
  { envAllOk with
    download := fun u =>
      if u = Config.base_url ++ r"B.tsv.gz" then Except.error StageError.transfer
      else Except.ok () }

/-- Environment where both cache directories already hold every artifact
and every stage primitive succeeds. -/
def envCached : Env :=
  { envAllOk with
    rawExists := fun _ => true
    parquetExists := fun _ => true }

/-- `envFailA` with one raw `*.tsv.gz` file present in the raw cache
directory, to observe what cleanup would delete. -/
def envFailACleanup : Env :=
  { envFailA with rawFiles := [r"name.basics.tsv.gz"] }

/-- `envAllOk` with one raw file present in the raw cache directory. -/
def envAllOkCleanup : Env :=
  { envAllOk with rawFiles := [r"name.basics.tsv.gz"] }

/-! ### Helper lemmas about the Run Result dictionary and the loop -/

theorem mem_pyDictInsert {m : List (String × Bool)} {k : String} {v : Bool}
    {p : String × Bool} (hp : p ∈ pyDictInsert m k v) : p ∈ m ∨ p = (k, v) := by
  unfold pyDictInsert at hp
  split at hp
  · rcases List.mem_map.1 hp with ⟨q, hq, hfq⟩
    by_cases hqk : (q.1 == k) = true
    · right; rw [if_pos hqk] at hfq; exact hfq.symm
    · left; rw [if_neg hqk] at hfq; rw [← hfq]; exact hq
  · rcases List.mem_append.1 hp with h1 | h1
    · left; exact h1
    · right; simpa using h1

theorem pyDictInsert_self (m : List (String × Bool)) (k : String) (v : Bool) :
    (k, v) ∈ pyDictInsert m k v := by
  unfold pyDictInsert
  split
  · next h =>
    rcases List.any_eq_true.1 h with ⟨q, hq, hqk⟩
    exact List.mem_map.2 ⟨q, hq, by rw [if_pos hqk]⟩
  · exact List.mem_append.2 (Or.inr (by simp))

theorem pyDictInsert_of_ne {m : List (String × Bool)} {k : String} {v : Bool}
    {p : String × Bool} (hp : p ∈ m) (hk : p.1 ≠ k) : p ∈ pyDictInsert m k v := by
  unfold pyDictInsert
  have hbeq : (p.1 == k) = false := by simpa using hk
  split
  · exact List.mem_map.2 ⟨p, hp, by rw [if_neg (by simp [hbeq])]⟩
  · exact List.mem_append.2 (Or.inl hp)

theorem pyDictInsert_outcome_inv {env : Env} {force skip : Bool}
    {m : List (String × Bool)}
    (h : ∀ p ∈ m, p.2 = (process_table env p.1 force skip).1) (t : String) :
    ∀ p ∈ pyDictInsert m t (process_table env t force skip).1,
      p.2 = (process_table env p.1 force skip).1 := by
  intro p hp
  rcases mem_pyDictInsert hp with h1 | h1
  · exact h p h1
  · rw [h1]

theorem run_pipeline_go_results_outcome (env : Env) (force skip ff : Bool) :
    ∀ (tables : List String) (acc : GoAcc),
      (∀ p ∈ acc.results, p.2 = (process_table env p.1 force skip).1) →
      ∀ p ∈ (run_pipeline_go env force skip ff tables acc).results,
        p.2 = (process_table env p.1 force skip).1 := by
  intro tables
  induction tables with
  | nil => intro acc h; simpa [run_pipeline_go] using h
  | cons t rest ih =>
    intro acc h
    simp only [run_pipeline_go]
    split
    · exact pyDictInsert_outcome_inv h t
    · exact ih _ (pyDictInsert_outcome_inv h t)

theorem run_pipeline_go_attempted_mem (env : Env) (force skip ff : Bool) :
    ∀ (tables : List String) (acc : GoAcc),
      (∀ p ∈ acc.results, p.2 = (process_table env p.1 force skip).1) →
      (∀ t ∈ acc.attempted, (t, (process_table env t force skip).1) ∈ acc.results) →
      ∀ t ∈ (run_pipeline_go env force skip ff tables acc).attempted,
        (t, (process_table env t force skip).1) ∈
          (run_pipeline_go env force skip ff tables acc).results := by
  intro tables
  induction tables with
  | nil => intro acc h hatt; simpa [run_pipeline_go] using hatt
  | cons t0 rest ih =>
    intro acc h hatt
    have hstep : ∀ t ∈ acc.attempted ++ [t0],
        (t, (process_table env t force skip).1) ∈
          pyDictInsert acc.results t0 (process_table env t0 force skip).1 := by
      intro t ht
      rcases List.mem_append.1 ht with h1 | h1
      · by_cases ht0 : t = t0
        · rw [ht0]; exact pyDictInsert_self _ _ _
        · exact pyDictInsert_of_ne (hatt t h1) ht0
      · have : t = t0 := by simpa using h1
        rw [this]; exact pyDictInsert_self _ _ _
    simp only [run_pipeline_go]
    split
    · exact hstep
    · exact ih _ (pyDictInsert_outcome_inv h t0) hstep

theorem run_pipeline_go_attempted_no_ff (env : Env) (force skip : Bool) :
    ∀ (tables : List String) (acc : GoAcc),
      (run_pipeline_go env force skip false tables acc).attempted =
        acc.attempted ++ tables := by
  intro tables
  induction tables with
  | nil => intro acc; simp [run_pipeline_go]
  | cons t rest ih =>
    intro acc
    simp only [run_pipeline_go, Bool.and_false]
    rw [if_neg (by simp)]
    rw [ih]
    simp

/-! ### Helper lemmas about the exit code and cleanup computations -/

theorem compute_exit_code_eq_zero {results : List (String × Bool)}
    (h : ∀ p ∈ results, p.2 = true) : compute_exit_code results = 0 := by
  unfold compute_exit_code
  have hf : results.filter (fun p => !p.2) = [] := by
    rw [List.filter_eq_nil_iff]
    intro a ha
    simp [h a ha]
  simp [hf]

theorem compute_exit_code_eq_one {results : List (String × Bool)}
    (h1 : ∃ p ∈ results, p.2 = true) (h2 : ∃ p ∈ results, p.2 = false) :
    compute_exit_code results = 1 := by
  unfold compute_exit_code
  obtain ⟨pt, hpt, ht⟩ := h1
  obtain ⟨pf, hpf, hf⟩ := h2
  have hfne : results.filter (fun p => !p.2) ≠ [] := by
    intro hnil
    rw [List.filter_eq_nil_iff] at hnil
    exact hnil pf hpf (by simp [hf])
  have hsne : results.filter (fun p => p.2) ≠ [] := by
    intro hnil
    rw [List.filter_eq_nil_iff] at hnil
    exact hnil pt hpt (by simp [ht])
  rw [if_neg hfne, if_pos hsne]

theorem compute_exit_code_eq_two {results : List (String × Bool)}
    (hne : results ≠ []) (h : ∀ p ∈ results, p.2 = false) :
    compute_exit_code results = 2 := by
  unfold compute_exit_code
  obtain ⟨q, rest, hq⟩ : ∃ q rest, results = q :: rest := by
    cases results with
    | nil => exact absurd rfl hne
    | cons q rest => exact ⟨q, rest, rfl⟩
  have hqmem : q ∈ results := by rw [hq]; exact List.mem_cons_self q rest
  have hfne : results.filter (fun p => !p.2) ≠ [] := by
    intro hnil
    rw [List.filter_eq_nil_iff] at hnil
    exact hnil q hqmem (by simp [h q hqmem])
  have hs : results.filter (fun p => p.2) = [] := by
    rw [List.filter_eq_nil_iff]
    intro a ha
    simp [h a ha]
  rw [if_neg hfne, if_neg (not_not_intro hs)]

theorem run_pipeline_deleted_of_failed {c : Bool} {results : List (String × Bool)}
    {raw pq : List String} (h : ∃ p ∈ results, p.2 = false) :
    run_pipeline_deleted c results raw pq = [] := by
  unfold run_pipeline_deleted
  obtain ⟨pf, hpf, hv⟩ := h
  rw [if_neg]
  rintro ⟨hc, hnil⟩
  rw [List.filter_eq_nil_iff] at hnil
  exact hnil pf hpf (by simp [hv])

theorem run_pipeline_deleted_ne_nil {c : Bool} {results : List (String × Bool)}
    {raw pq : List String} (h : run_pipeline_deleted c results raw pq ≠ []) :
    c = true ∧ ∀ p ∈ results, p.2 = true := by
  unfold run_pipeline_deleted at h
  by_cases hcond : c = true ∧ results.filter (fun p => !p.2) = []
  · refine ⟨hcond.1, fun p hp => ?_⟩
    have h2 := (List.filter_eq_nil_iff.1 hcond.2) p hp
    simpa using h2
  · rw [if_neg hcond] at h
    exact absurd rfl h

theorem run_pipeline_deleted_all_ok {c : Bool} {results : List (String × Bool)}
    {raw pq : List String} (hc : c = true) (h : ∀ p ∈ results, p.2 = true) :
    run_pipeline_deleted c results raw pq = cleanup_local_files true raw pq := by
  unfold run_pipeline_deleted
  rw [if_pos ⟨hc, by rw [List.filter_eq_nil_iff]; intro a ha; simp [h a ha]⟩]

theorem run_pipeline_exitCode_eq (env : Env) (topt : Option (List String))
    (f s ff c : Bool) :
    (run_pipeline env topt f s ff c).exitCode =
      compute_exit_code (run_pipeline env topt f s ff c).results := by
  simp [run_pipeline]

theorem run_pipeline_deleted_eq (env : Env) (topt : Option (List String))
    (f s ff c : Bool) :
    (run_pipeline env topt f s ff c).deleted =
      run_pipeline_deleted c (run_pipeline env topt f s ff c).results
        env.rawFiles env.parquetFiles := by
  simp [run_pipeline]

/-! ### Claim theorems -/

/-- Claim C1: `run_pipeline` returns exit status 0 when every processed
table succeeded, 1 when at least one processed table succeeded and at
least one failed, and 2 when at least one table was attempted and none
succeeded; the process (`main`) exits with this value, and a pre-flight
configuration error also exits with 2. -/
theorem run_pipeline_exit_code_law (env : Env) (topt : Option (List String))
    (force skip fail_fast cleanup : Bool) :
    ((∀ p ∈ (run_pipeline env topt force skip fail_fast cleanup).results,
        p.2 = true) →
      (run_pipeline env topt force skip fail_fast cleanup).exitCode = 0) ∧
    (((∃ p ∈ (run_pipeline env topt force skip fail_fast cleanup).results,
          p.2 = true) ∧
      (∃ p ∈ (run_pipeline env topt force skip fail_fast cleanup).results,
          p.2 = false)) →
      (run_pipeline env topt force skip fail_fast cleanup).exitCode = 1) ∧
    (((run_pipeline env topt force skip fail_fast cleanup).results ≠ [] ∧
      ∀ p ∈ (run_pipeline env topt force skip fail_fast cleanup).results,
        p.2 = false) →
      (run_pipeline env topt force skip fail_fast cleanup).exitCode = 2) ∧
    (∀ tables_cli : List String,
      (main true false env tables_cli force skip fail_fast cleanup).1 =
        (run_pipeline env
          (if tables_cli.isEmpty then none else some tables_cli)
          force skip fail_fast cleanup).exitCode) ∧
    (∀ (dry_run : Bool) (tables_cli : List String),
      main false dry_run env tables_cli force skip fail_fast cleanup = (2, [])) := by
  refine ⟨?_, ?_, ?_, ?_, ?_⟩
  · intro h
    rw [run_pipeline_exitCode_eq]
    exact compute_exit_code_eq_zero h
  · rintro ⟨h1, h2⟩
    rw [run_pipeline_exitCode_eq]
    exact compute_exit_code_eq_one h1 h2
  · rintro ⟨hne, h⟩
    rw [run_pipeline_exitCode_eq]
    exact compute_exit_code_eq_two hne h
  · intro tables_cli
    simp [main]
  · intro dry_run tables_cli
    rfl

/-- Witness for C1: a run over tables `A` (succeeds) and `B` (its download
fails) exits with code 1. -/
theorem run_pipeline_exit_code_law_witness :
    (run_pipeline envFailB (some [r"A", r"B"]) false false false false).exitCode
      = 1 := by
  have h := run_pipeline_exit_code_law envFailB (some [r"A", r"B"])
    false false false false
  exact h.2.1 ⟨⟨(r"A", true), by decide, rfl⟩, ⟨(r"B", false), by decide, rfl⟩⟩

/-- Claim C2: every table for which `process_table` was invoked appears in
the Run Result with its boolean outcome; and with `fail_fast=true` and
tables `[A, B, C]` where A's fetch fails, B and C are never attempted —
no stage call is made for them — and the Run Result contains only A. -/
theorem run_result_covers_attempted :
    (∀ (env : Env) (topt : Option (List String))
        (force skip fail_fast cleanup : Bool),
      ∀ t ∈ (run_pipeline env topt force skip fail_fast cleanup).attempted,
        (t, (process_table env t force skip).1) ∈
          (run_pipeline env topt force skip fail_fast cleanup).results) ∧
    ((run_pipeline envFailA (some [r"A", r"B", r"C"]) false false true
        false).attempted = [r"A"] ∧
     (run_pipeline envFailA (some [r"A", r"B", r"C"]) false false true
        false).results = [(r"A", false)] ∧
     (run_pipeline envFailA (some [r"A", r"B", r"C"]) false false true
        false).events = [Event.fetch (r"A")]) := by
  constructor
  · intro env topt force skip fail_fast cleanup t ht
    simp only [run_pipeline] at ht ⊢
    exact run_pipeline_go_attempted_mem env force skip fail_fast _ _
      (by simp) (by simp) t ht
  · exact ⟨by decide, by decide, by decide⟩

/-- Witness for C2: in an all-success run over the single table `A`, the
pair of `A` and its outcome is in the Run Result. -/
theorem run_result_covers_attempted_witness :
    (r"A", (process_table envAllOk (r"A") false false).1) ∈
      (run_pipeline envAllOk (some [r"A"]) false false false false).results := by
  exact run_result_covers_attempted.1 envAllOk (some [r"A"]) false false false
    false (r"A") (by decide)

/-- Claim C4: `run_pipeline` deletes local artifacts only when
`cleanup=true` and no processed table failed; whenever any table's outcome
is failure, nothing is deleted even with `cleanup=true`; and when cleanup
does run, it is `cleanup_local_files` with `keep_parquet=True`. -/
theorem cleanup_guard (env : Env) (topt : Option (List String))
    (force skip fail_fast cleanup : Bool) :
    ((∃ p ∈ (run_pipeline env topt force skip fail_fast cleanup).results,
        p.2 = false) →
      (run_pipeline env topt force skip fail_fast cleanup).deleted = []) ∧
    ((run_pipeline env topt force skip fail_fast cleanup).deleted ≠ [] →
      cleanup = true ∧
      ∀ p ∈ (run_pipeline env topt force skip fail_fast cleanup).results,
        p.2 = true) ∧
    ((cleanup = true ∧
      ∀ p ∈ (run_pipeline env topt force skip fail_fast cleanup).results,
        p.2 = true) →
      (run_pipeline env topt force skip fail_fast cleanup).deleted =
        cleanup_local_files true env.rawFiles env.parquetFiles) := by
  refine ⟨?_, ?_, ?_⟩
  · intro h
    rw [run_pipeline_deleted_eq]
    exact run_pipeline_deleted_of_failed h
  · intro h
    rw [run_pipeline_deleted_eq] at h
    exact run_pipeline_deleted_ne_nil h
  · rintro ⟨hc, h⟩
    rw [run_pipeline_deleted_eq]
    exact run_pipeline_deleted_all_ok hc h

/-- Witness for C4: with `cleanup=true` but table `A` failing and a raw
file present in the cache directory, nothing is deleted. -/
theorem cleanup_guard_witness :
    (run_pipeline envFailACleanup (some [r"A"]) false false false
      true).deleted = [] := by
  exact (cleanup_guard envFailACleanup (some [r"A"]) false false false true).1
    ⟨(r"A", false), by decide, rfl⟩

/-- Claim C8: `process_table` never propagates an exception — whenever its
body raises a stage error, the per-table outcome is `false`; and an
invalid configuration makes `main` exit 2 with no stage call made (the
check happens before any table is processed). -/
theorem process_table_catches_stage_errors :
    (∀ (env : Env) (t : String) (force skip : Bool) (e : StageError),
      (process_table_body env t force skip).2 = Except.error e →
      (process_table env t force skip).1 = false) ∧
    (∀ (dry_run : Bool) (env : Env) (tables_cli : List String)
        (force skip fail_fast cleanup : Bool),
      main false dry_run env tables_cli force skip fail_fast cleanup
        = (2, [])) := by
  constructor
  · intro env t force skip e h
    unfold process_table
    rcases hb : process_table_body env t force skip with ⟨evs, r⟩
    rw [hb] at h
    simp only at h
    rw [h]
  · intro dry_run env tables_cli force skip fail_fast cleanup
    rfl

/-- Witness for C8: table `A`'s fetch raises a network error and
`process_table` returns `false` for it. -/
theorem process_table_catches_stage_errors_witness :
    (process_table envFailA (r"A") false false).1 = false := by
  exact process_table_catches_stage_errors.1 envFailA (r"A") false false
    StageError.transfer rfl

/-- Claim C10: calling `run_pipeline` with `tables=None` or with an empty
table list processes the full default catalogue of seven tables: the Run
Result gets an entry for every catalogue table (stated here for runs
without fail-fast abort, `fail_fast=false`). -/
theorem run_pipeline_default_catalogue (env : Env) (force skip cleanup : Bool)
    (topt : Option (List String)) (h : topt = none ∨ topt = some []) :
    Config.tables.length = 7 ∧
    (run_pipeline env topt force skip false cleanup).attempted =
      Config.tables ∧
    ∀ t ∈ Config.tables,
      (t, (process_table env t force skip).1) ∈
        (run_pipeline env topt force skip false cleanup).results := by
  have hatt : (run_pipeline env topt force skip false cleanup).attempted =
      Config.tables := by
    rcases h with h | h <;> rw [h] <;>
      simp only [run_pipeline] <;>
      rw [run_pipeline_go_attempted_no_ff] <;>
      simp
  refine ⟨by decide, hatt, ?_⟩
  intro t ht
  have ht2 : t ∈ (run_pipeline env topt force skip false cleanup).attempted := by
    rw [hatt]; exact ht
  simp only [run_pipeline] at ht2 ⊢
  exact run_pipeline_go_attempted_mem env force skip false _ _
    (by simp) (by simp) t ht2

/-- Witness for C10: with `tables=None` and an all-success environment the
attempted tables are exactly the seven-table catalogue. -/
theorem run_pipeline_default_catalogue_witness :
    (run_pipeline envAllOk none false false false false).attempted =
      Config.tables := by
  exact (run_pipeline_default_catalogue envAllOk false false false none
    (Or.inl rfl)).2.1

/-- Claim C3: when `force_download` is false and both the raw and the
columnar artifact of a table already exist on disk, `process_table` makes
no fetch and no transform call, still makes the publish call, and — when
the upload succeeds and `skip_bigquery` is not set — also makes the load
call. -/
theorem process_table_idempotent_skip (env : Env) (t : String) (skip : Bool)
    (hraw : env.rawExists
      (Config.raw_data_folder ++ r"/" ++ Config.get_table_filename t) = true)
    (hpq : env.parquetExists
      (Config.parquet_data_folder ++ r"/" ++ Config.get_table_id t ++
        r".parquet") = true) :
    (∀ s, Event.fetch s ∉ (process_table env t false skip).2) ∧
    (∀ s, Event.transform s ∉ (process_table env t false skip).2) ∧
    Event.publish t ∈ (process_table env t false skip).2 ∧
    (∀ u : Unit, env.upload (Config.get_gcs_path t) = Except.ok u →
      skip = false → Event.load t ∈ (process_table env t false skip).2) := by
  rcases hu : env.upload (Config.get_gcs_path t) with e | u
  · have hv : process_table env t false skip = (false, [Event.publish t]) := by
      simp [process_table, process_table_body, hraw, hpq, hu]
    rw [hv]
    refine ⟨by simp, by simp, by simp, ?_⟩
    intro u hu2
    exact absurd hu2 (by simp)
  · cases skip with
    | true =>
      have hv : process_table env t false true = (true, [Event.publish t]) := by
        simp [process_table, process_table_body, hraw, hpq, hu]
      rw [hv]
      refine ⟨by simp, by simp, by simp, ?_⟩
      intro u2 hu2 hcontra
      exact absurd hcontra (by simp)
    | false =>
      rcases hl : env.loadJob (Config.get_table_id t) with e2 | u2
      · have hv : process_table env t false false =
            (false, [Event.publish t, Event.load t]) := by
          simp [process_table, process_table_body, hraw, hpq, hu, hl]
        rw [hv]
        exact ⟨by simp, by simp, by simp, fun _ _ _ => by simp⟩
      · have hv : process_table env t false false =
            (true, [Event.publish t, Event.load t]) := by
          simp [process_table, process_table_body, hraw, hpq, hu, hl]
        rw [hv]
        exact ⟨by simp, by simp, by simp, fun _ _ _ => by simp⟩

/-- Witness for C3: in the fully cached environment, processing
`title.basics` a second time performs publish and load. -/
theorem process_table_idempotent_skip_witness :
    Event.publish (r"title.basics") ∈
      (process_table envCached (r"title.basics") false false).2 ∧
    Event.load (r"title.basics") ∈
      (process_table envCached (r"title.basics") false false).2 ∧
    (∀ s, Event.fetch s ∉
      (process_table envCached (r"title.basics") false false).2) := by
  have h := process_table_idempotent_skip envCached (r"title.basics") false
    rfl rfl
  exact ⟨h.2.2.1, h.2.2.2 () rfl rfl, h.1⟩

/-- Claim C5 evidence: `download_file` writes directly to the destination
path, so an attempt that passes the HTTP status check, delivers one chunk
and is then interrupted raises a transfer error yet leaves the partial
bytes at the destination; the `force=false` cache test of `process_table`
then treats that partial file as a cache hit and skips the fetch. -/
theorem download_partial_left_as_cache_hit :
    (download_file ⟨true, [[1, 2, 3]], true⟩ (r"data/raw/title.basics.tsv.gz")
       fun _ => none).2 = Except.error StageError.transfer ∧
    ((download_file ⟨true, [[1, 2, 3]], true⟩ (r"data/raw/title.basics.tsv.gz")
       fun _ => none).1 (r"data/raw/title.basics.tsv.gz")) = some [1, 2, 3] ∧
    fetch_skipped false
      (download_file ⟨true, [[1, 2, 3]], true⟩ (r"data/raw/title.basics.tsv.gz")
        fun _ => none).1 (r"data/raw/title.basics.tsv.gz") = true := by
  refine ⟨rfl, ?_, rfl⟩
  simp [download_file]

/-- Claim C6 counterexample: at a concrete successfully converted input
(5 rows, 3 columns, 200-byte source, 100-byte parquet file),
`convert_to_parquet` returns no `ConversionReport` at all — the Python
function is annotated `-> None` and only logs the metrics. -/
theorem convert_to_parquet_returns_no_report :
    ¬ ∃ o, convert_to_parquet (Except.ok (5, 3)) 200 100 = Except.ok o ∧
      ∃ report : ConversionReport, o.returned = some report := by
  rintro ⟨o, ho, report, hr⟩
  simp only [convert_to_parquet, Except.ok.injEq] at ho
  rw [← ho] at hr
  simp at hr

/-- Claim C6 amended: for every successfully converted input,
`convert_to_parquet` computes and logs the row count, the column count and
the size-reduction percentage `(1 - compressed_size/original_size) * 100`
— one hundred times the spec's compression ratio — but returns `None`; a
read failure is re-raised. -/
theorem convert_to_parquet_logs_report (nrows ncols : Nat)
    (original_size parquet_size : ℚ) (e : StageError) :
    convert_to_parquet (Except.ok (nrows, ncols)) original_size parquet_size =
      Except.ok
        { logged_rows := nrows
          logged_columns := ncols
          logged_size_reduction_percent :=
            spec_compression_ratio original_size parquet_size * 100
          returned := none } ∧
    convert_to_parquet (Except.error e) original_size parquet_size =
      Except.error e := by
  exact ⟨rfl, rfl⟩

/-- Claim C7 evidence: when `get_dataset` raises `NotFound` and the
subsequent `create_dataset` raises `Conflict` (the dataset was created
concurrently between the check and the create), `ensure_dataset_exists`
propagates the `Conflict` instead of treating it as success: an exception
raised inside the `except NotFound` handler is not caught by the sibling
`except Exception` clause, and the imported `Conflict` class is never
used. -/
theorem ensure_dataset_conflict_propagates :
    ensure_dataset_exists (Except.error GError.notFound)
        (Except.error GError.conflict) = Except.error GError.conflict ∧
    ensure_dataset_exists (Except.error GError.notFound)
        (Except.error GError.conflict) ≠ Except.ok () := by
  refine ⟨rfl, ?_⟩
  intro h
  simp [ensure_dataset_exists] at h

/-- Claim C9: `execute_sql` always returns a result dictionary and never
raises: on success the dictionary has `success=True`, `error=None`, the
row set as `data` and `rows_returned` equal to the number of rows in it;
on any failure it has `success=False`, `data=None`, the failure message as
`error` and `rows_returned=0`. -/
theorem execute_sql_result_shape (rows : List (List String)) (bytes : Nat)
    (msg : String) :
    (execute_sql (Except.ok (rows, bytes))).success = true ∧
    (execute_sql (Except.ok (rows, bytes))).error = none ∧
    (execute_sql (Except.ok (rows, bytes))).data = some rows ∧
    (execute_sql (Except.ok (rows, bytes))).rows_returned = rows.length ∧
    (execute_sql (Except.error msg)).success = false ∧
    (execute_sql (Except.error msg)).data = none ∧
    (execute_sql (Except.error msg)).error = some msg ∧
    (execute_sql (Except.error msg)).rows_returned = 0 := by
  exact ⟨rfl, rfl, rfl, rfl, rfl, rfl, rfl, rfl⟩

end IMDB
